import Mathlib

/-!
Verification of the TTN LoRaWAN ADR core (networkserver adr.go) and the
Semtech gateway packet parser against their natural-language specification.

The Go source is shallowly embedded: pointer-mutated state (`dev`,
`message`) is threaded explicitly, fallible store calls become explicit
outcome parameters, `uint32` arithmetic is `Int`/`Nat` arithmetic reduced
`% 2 ^ 32`, and `float32`/`float64` SNR values are modelled as exact
rationals (`ℚ`).
-/

namespace TTN

/-- Frame is one uplink telemetry sample held by the frame-history store
(`device.Frame`): frame counter (uint32), best SNR across gateways
(float32, modelled as `ℚ`), and the number of reporting gateways. -/
structure Frame where
  fcnt : Nat
  snr : ℚ
  gatewayCount : Nat
deriving DecidableEq, Inhabited

/-- Modelled from the spec: `device.FramesHistorySize` lives in the device
package, which is not part of the provided sources.  The spec fixes a
"fixed window size" and its worked example uses a window of 20 frames
(counters 100..119), so the size is taken to be 20. -/
def FramesHistorySize : Nat := 20

/-- DefaultADRMargin is the default SNR margin for ADR
(`var DefaultADRMargin = 15`). -/
def DefaultADRMargin : Int := 15

/-- maxSNR embeds the Go function `maxSNR`: 0 for an empty window,
otherwise a fold starting from `frames[0].SNR` replacing the accumulator
whenever a strictly larger SNR is seen. -/
def maxSNR (frames : List Frame) : ℚ :=
  match frames with
  | [] => 0
  | f :: _ => frames.foldl (fun m fr => if fr.snr > m then fr.snr else m) f.snr

/-- lossPercentage embeds the Go function `lossPercentage`.
`sentPackets := frames[0].FCnt - frames[len-1].FCnt + 1` and
`loss := sentPackets - len(frames)` are uint32 subtractions, modelled by
integer arithmetic reduced `% 2 ^ 32`.  The Go return value
`int(math.Floor(float64(loss)/float64(sentPackets)*100 + .5))` is modelled
in exact arithmetic as `⌊100 * loss / sentPackets + 1/2⌋`, written in the
equivalent integer form `(200 * loss + sentPackets) / (2 * sentPackets)`
(Nat division); the equivalence with the rational floor expression is
proved in the C1 theorem below.  (For `sentPackets = 0` the Go code
divides by zero in float; that degenerate case is outside every claim and
the model returns the Nat-division-by-zero value 0 there.) -/
def lossPercentage (frames : List Frame) : Int :=
  match frames.head?, frames.getLast? with
  | some newest, some oldest =>
    let sentPackets : Nat := (((newest.fcnt : Int) - oldest.fcnt + 1) % 2 ^ 32).toNat
    let loss : Nat := (((sentPackets : Int) - frames.length) % 2 ^ 32).toNat
    ((200 * loss + sentPackets) / (2 * sentPackets) : Nat)
  | _, _ => 0

/-- Window of 20 consecutive frame counters 119 down to 100, newest
first: the gap-free window used as a witness. -/
def noGapWindow : List Frame :=
  (List.range 20).map (fun i => { fcnt := 119 - i, snr := 7, gatewayCount := 1 })

/-- Window from the spec's worked example: counters 100..119 present
except 105 and 110 (18 samples), newest first. -/
def exampleWindow : List Frame :=
  (((List.range 20).map (fun i => 119 - i)).filter
    (fun c => c ≠ 105 ∧ c ≠ 110)).map
    (fun c => { fcnt := c, snr := 7, gatewayCount := 1 })

/-- DevADR mirrors the `dev.ADR` record of the device package (not in the
provided sources; field set and zero-value conventions are exactly the
ones the embedded handlers read and write, as described in spec §3):
band and data-rate identifiers (empty string = unset), transmit power,
retransmission count and SNR margin (0 = unset), the pending-request flag
`SendReq`, and the failure counter `Failed`. -/
structure DevADR where
  band : String
  dataRate : String
  txPower : Int
  nbTrans : Int
  margin : Int
  sendReq : Bool
  failed : Int
deriving DecidableEq

/-- DevOptions holds the per-device options read by the handlers; only
`DisableFCntCheck` is consulted. -/
structure DevOptions where
  disableFCntCheck : Bool
deriving DecidableEq

/-- Device is the slice of `device.Device` the two ADR handlers touch. -/
structure Device where
  adr : DevADR
  options : DevOptions
deriving DecidableEq

/-- MACCommand mirrors `pb_lorawan.MACCommand`: a command identifier and
an opaque marshalled payload. -/
structure MACCommand where
  cid : Nat
  payload : List Nat
deriving DecidableEq

/-- LinkADRReqCID is `lorawan.LinkADRReq` (CID 0x03). -/
def LinkADRReqCID : Nat := 3

/-- DownlinkMAC is the slice of the downlink LoRaWAN MAC payload the
handlers mutate: the Ack bit and the FOpts MAC-command list. -/
structure DownlinkMAC where
  ack : Bool
  fOpts : List MACCommand
deriving DecidableEq

/-- UplinkMsg is the slice of the deduplicated uplink message read by
`handleUplinkADR`: the uplink MAC fields (ADR bit, ADRAckReq bit, FCnt,
data rate) plus the per-gateway SNRs and the frequency-plan identifier
from the metadata. -/
structure UplinkMsg where
  adr : Bool
  adrAckReq : Bool
  fcnt : Nat
  dataRate : String
  frequencyPlan : String
  gatewaySNRs : List ℚ

/-- Modelled from the spec: `bestSNR` (defined elsewhere in the
networkserver package, not in the provided sources) computes "the best
SNR across all gateways that reported this uplink (if none reported,
treat as 0)" (spec §4.2). -/
def bestSNR (snrs : List ℚ) : ℚ :=
  match snrs with
  | [] => 0
  | s :: rest => rest.foldl (fun m x => if x > m then x else m) s

/-- Modelled from the spec: the frame-history store's `push` (device
package, not in the provided sources) prepends the sample as newest and
truncates to the window size (spec §4.1). -/
def pushFrame (f : Frame) (history : List Frame) : List Frame :=
  (f :: history).take FramesHistorySize

/-- ULResult is the observable outcome of `handleUplinkADR`: whether an
error was returned, plus the final device record, frame history and
paired downlink MAC payload (in Go these are mutated through pointers, so
the caller sees them even on an error return). -/
structure ULResult where
  err : Bool
  dev : Device
  history : List Frame
  mac : DownlinkMAC

/-- handleUplinkADR embeds the Go method `handleUplinkADR`.  The three
Boolean parameters are the outcomes of the fallible store calls:
`framesErr` for `n.devices.Frames(...)` (an error there is returned
immediately), `pushErr` for `history.Push(...)` (an error there is logged
and ignored), `clearErr` for `history.Clear()` (propagated). -/
def handleUplinkADR (framesErr pushErr clearErr : Bool) (msg : UplinkMsg)
    (dev : Device) (history : List Frame) (mac : DownlinkMAC) : ULResult :=
  if framesErr then ⟨true, dev, history, mac⟩
  else if msg.adr then
    let history :=
      if pushErr then history
      else pushFrame
        { fcnt := msg.fcnt,
          snr := bestSNR msg.gatewaySNRs,
          gatewayCount := msg.gatewaySNRs.length } history
    let dev :=
      if dev.adr.band = "" then
        { dev with adr := { dev.adr with band := msg.frequencyPlan } }
      else dev
    let dev :=
      if dev.adr.dataRate ≠ msg.dataRate then
        { dev with adr :=
            { dev.adr with
              dataRate := msg.dataRate,
              sendReq := true } }
      else dev
    if msg.adrAckReq then
      ⟨false, { dev with adr := { dev.adr with sendReq := true } }, history,
        { mac with ack := true }⟩
    else ⟨false, dev, history, mac⟩
  else
    if clearErr then ⟨true, dev, history, mac⟩
    else
      ⟨false,
        { dev with adr :=
            { dev.adr with
              sendReq := false,
              dataRate := "",
              txPower := 0,
              nbTrans := 0 } },
        [], mac⟩

/-- BandErr is the failure mode of the plan's `ADRSettings`:
`band.ErrADRUnavailable` or any other error. -/
inductive BandErr where
  | unavailable
  | generic
deriving DecidableEq

/-- Modelled from the spec: the frequency-plan capability (the
`core/band` package is not in the provided sources).  Spec §6: default
transmit power; `ADRSettings(currentDataRate, currentPower, maxSNR,
margin) → (newDataRate, newPower)` failing with ADR-unavailable or a
generic error; data-rate and power index lookups that can fail;
enumeration of uplink channels, each with the set of data-rate indices it
supports. -/
structure FrequencyPlan where
  defaultTXPower : Int
  adrSettings : String → Int → ℚ → ℚ → Except BandErr (String × Int)
  getDataRateIndexFor : String → Except Unit Nat
  getTxPowerIndexFor : Int → Except Unit Nat
  uplinkChannels : List (List Nat)

/-- LinkADRReqPayload mirrors `lorawan.LinkADRReqPayload` with
`ChMaskCntl` fixed to 0 as in the source: data-rate index and power index
(uint8), a 16-entry channel mask, and the redundancy count (uint8). -/
structure LinkADRReqPayload where
  dataRate : Nat
  txPower : Nat
  chMask : List Bool
  nbRep : Nat
deriving DecidableEq

/-- buildChMask embeds the channel-mask loop of `handleDownlinkADR`: the
mask starts as 16 `false` bits (`lorawan.ChMask` is `[16]bool`) and bit
`i` is set when channel `i`'s data rates contain the resolved data-rate
index.  (`List.set` ignores indices past 16, where the Go original would
panic; no frequency plan in the claims has more than 16 channels.) -/
def buildChMask (channels : List (List Nat)) (drIdx : Nat) : List Bool :=
  (channels.zip (List.range channels.length)).foldl
    (fun mask chi => if drIdx ∈ chi.1 then mask.set chi.2 true else mask)
    (List.replicate 16 false)

/-- Modelled from the spec: `MarshalBinary` of the LinkADRReq payload
(external `lorawan` library).  Spec §6: a binary payload containing the
data-rate index (1 byte), power index (1 byte), the channel mask, and the
retransmission count (1 byte); the exact wire layout is irrelevant to the
claims, only that the encoding is a function of the payload. -/
def marshalLinkADRReq (p : LinkADRReqPayload) : List Nat :=
  p.dataRate % 256 :: p.txPower % 256 ::
    (p.chMask.map (fun b => if b then 1 else 0)) ++ [p.nbRep % 256]

/-- clampNbTrans embeds the two clamp statements of `handleDownlinkADR`:
`if nbTrans < 1 { nbTrans = 1 }; if nbTrans > 3 { nbTrans = 3 }`. -/
def clampNbTrans (n : Int) : Int :=
  let n := if n < 1 then 1 else n
  if n > 3 then 3 else n

/-- rawNbTransAdjust embeds the `switch` on the loss percentage in
`handleDownlinkADR`: loss ≤ 5 decrements, ≤ 10 keeps, ≤ 30 increments,
otherwise increments by 2. -/
def rawNbTransAdjust (lp : Int) (n : Int) : Int :=
  if lp ≤ 5 then n - 1
  else if lp ≤ 10 then n
  else if lp ≤ 30 then n + 1
  else n + 2

/-- nbTransStep embeds lines 143-162 of `handleDownlinkADR`: the
retransmission-count adjustment runs only when the candidate data rate
and power equal the (defaulted) stored values and `DisableFCntCheck` is
not set; its raw result is clamped into `[1, 3]`. -/
def nbTransStep (dev : Device) (frames : List Frame)
    (dataRate : String) (txPower : Int) : Int :=
  if dev.adr.dataRate = dataRate ∧ dev.adr.txPower = txPower ∧
      dev.options.disableFCntCheck = false then
    clampNbTrans (rawNbTransAdjust (lossPercentage frames) dev.adr.nbTrans)
  else dev.adr.nbTrans

/-- spliceLinkADRReq embeds lines 188-200 of `handleDownlinkADR`: every
already-queued command with CID `LinkADRReq` is removed from FOpts and
the freshly built command is appended. -/
def spliceLinkADRReq (fOpts : List MACCommand) (cmd : MACCommand) : List MACCommand :=
  fOpts.filter (fun c => c.cid ≠ LinkADRReqCID) ++ [cmd]

/-- DownlinkInput collects the outcomes of the external calls
`handleDownlinkADR` makes: the error value of `n.devices.Frames(...)`
(which the source assigns to `err` and then immediately overwrites
without checking), the result of `history.Get()`, and the `band.Get`
plan lookup (modelled from the spec, `core/band` not being in the
provided sources). -/
structure DownlinkInput where
  framesErr : Bool
  getResult : Except Unit (List Frame)
  bandGet : String → Except Unit FrequencyPlan

/-- DLResult is the observable outcome of `handleDownlinkADR`: whether an
error was returned, plus the final device record and downlink MAC payload
(mutated through pointers in Go, hence visible even on error). -/
structure DLResult where
  err : Bool
  dev : Device
  mac : DownlinkMAC
deriving DecidableEq

/-- handleDownlinkADR embeds the Go method `handleDownlinkADR` line by
line: the guard cascade, the lazily-written defaults for margin / power /
retransmission count, the plan calls, the retransmission adjustment
(`nbTransStep`), the no-op tuple comparison, and the LinkADRReq build and
splice.  `inp.framesErr` is deliberately never read, mirroring the source
where the error of `n.devices.Frames` is overwritten by the error of
`history.Get()`. -/
def handleDownlinkADR (inp : DownlinkInput) (dev : Device) (mac : DownlinkMAC) : DLResult :=
  if dev.adr.sendReq = false then ⟨false, dev, mac⟩
  else if 0 < dev.adr.failed then ⟨false, dev, mac⟩
  else
    match inp.getResult with
    | .error _ => ⟨true, dev, mac⟩
    | .ok frames0 =>
      if frames0.length < FramesHistorySize then ⟨false, dev, mac⟩
      else
        let frames := frames0.take FramesHistorySize
        if dev.adr.dataRate = "" then ⟨false, dev, mac⟩
        else
          let dev :=
            if dev.adr.margin = 0 then
              { dev with adr := { dev.adr with margin := DefaultADRMargin } }
            else dev
          if dev.adr.band = "" then ⟨false, dev, mac⟩
          else
            match inp.bandGet dev.adr.band with
            | .error _ => ⟨true, dev, mac⟩
            | .ok fp =>
              let dev :=
                if dev.adr.txPower = 0 then
                  { dev with adr := { dev.adr with txPower := fp.defaultTXPower } }
                else dev
              let dev :=
                if dev.adr.nbTrans = 0 then
                  { dev with adr := { dev.adr with nbTrans := 1 } }
                else dev
              match fp.adrSettings dev.adr.dataRate dev.adr.txPower (maxSNR frames)
                  (dev.adr.margin : ℚ) with
              | .error .unavailable => ⟨false, dev, mac⟩
              | .error .generic => ⟨true, dev, mac⟩
              | .ok (dataRate, txPower) =>
                match fp.getDataRateIndexFor dataRate with
                | .error _ => ⟨true, dev, mac⟩
                | .ok drIdx =>
                  let powerIdx :=
                    match fp.getTxPowerIndexFor txPower with
                    | .ok i => i
                    | .error _ => ((fp.getTxPowerIndexFor fp.defaultTXPower).toOption).getD 0
                  let nbTrans := nbTransStep dev frames dataRate txPower
                  if dev.adr.dataRate = dataRate ∧ dev.adr.txPower = txPower ∧
                      dev.adr.nbTrans = nbTrans then
                    ⟨false, dev, mac⟩
                  else
                    let dev :=
                      { dev with adr :=
                          { dev.adr with
                            dataRate := dataRate,
                            txPower := txPower,
                            nbTrans := nbTrans } }
                    let response : LinkADRReqPayload :=
                      { dataRate := drIdx,
                        txPower := powerIdx,
                        chMask := buildChMask fp.uplinkChannels drIdx,
                        nbRep := (dev.adr.nbTrans % 256).toNat }
                    let cmd : MACCommand :=
                      { cid := LinkADRReqCID, payload := marshalLinkADRReq response }
                    ⟨false, dev, { mac with fOpts := spliceLinkADRReq mac.fOpts cmd }⟩

/-- applyADRDefaults is the composite of the three lazily-written
defaults of `handleDownlinkADR` (margin, transmit power, retransmission
count), used to state what the state looks like after the default-writing
prefix of the procedure has run. -/
def applyADRDefaults (fp : FrequencyPlan) (dev : Device) : Device :=
  let dev :=
    if dev.adr.margin = 0 then
      { dev with adr := { dev.adr with margin := DefaultADRMargin } }
    else dev
  let dev :=
    if dev.adr.txPower = 0 then
      { dev with adr := { dev.adr with txPower := fp.defaultTXPower } }
    else dev
  if dev.adr.nbTrans = 0 then
    { dev with adr := { dev.adr with nbTrans := 1 } }
  else dev

/-- Payload keeps the `Raw` bytes of the gateway-protocol `Payload`
struct; the decoded RXPK / Stat / TXPK views belong to `decodePayload`,
which is outside the provided sources (spec §1 places the gateway packet
envelope's JSON payloads out of scope). -/
structure Payload where
  raw : List Nat
deriving DecidableEq

/-- Packet mirrors the gateway-protocol `Packet` struct: protocol
version, 2-byte token, command identifier, optional 8-byte gateway id,
optional decoded payload. -/
structure Packet where
  version : Nat
  token : List Nat
  identifier : Nat
  gatewayId : Option (List Nat)
  payload : Option Payload
deriving DecidableEq

/-- PUSH_DATA is the first gateway-protocol command identifier. -/
def PUSH_DATA : Nat := 0

/-- PUSH_ACK is the second gateway-protocol command identifier. -/
def PUSH_ACK : Nat := 1

/-- PULL_DATA is the third gateway-protocol command identifier. -/
def PULL_DATA : Nat := 2

/-- PULL_RESP is the fourth gateway-protocol command identifier. -/
def PULL_RESP : Nat := 3

/-- PULL_ACK is the fifth gateway-protocol command identifier. -/
def PULL_ACK : Nat := 4

/-- GoResult is the outcome of running `Parse` under Go semantics:
either a runtime panic (an out-of-range index), or a normal return
carrying the error flag and the (possibly nil) packet pointer. -/
inductive GoResult where
  | panic
  | ret (err : Bool) (packet : Option Packet)
deriving DecidableEq

/-- Parse embeds the Go function `Parse` of the gateway protocol package.
Byte strings are `List Nat`; the header reads `raw[0]` and `raw[3]` are
modelled with `List.get?`, a `none` result being Go's index-out-of-range
panic; the slices `raw[1:3]`, `raw[4:12]` and `raw[4:]` only occur under
guards that make them in-range.  `decodePayload` is outside the provided
sources, so it is passed in as a function returning, as in Go, an error
flag and an optional payload. -/
def Parse (dec : List Nat → Bool × Option Payload) (raw : List Nat) : GoResult :=
  let size := raw.length
  if size < 3 then .ret true none
  else
    match raw.get? 0, raw.get? 3 with
    | some v0, some v3 =>
      let packet : Packet :=
        { version := v0,
          token := (raw.drop 1).take 2,
          identifier := v3,
          gatewayId := none,
          payload := none }
      if packet.version ≠ 1 then .ret true none
      else if PULL_ACK < packet.identifier then .ret true none
      else
        let packet :=
          if 12 ≤ size ∧ packet.identifier = PULL_DATA then
            { packet with gatewayId := some ((raw.drop 4).take 8) }
          else packet
        if (4 < size ∧ packet.identifier = PUSH_DATA) ∨ packet.identifier = PULL_RESP then
          let r := dec (raw.drop 4)
          .ret r.1 (some { packet with payload := r.2 })
        else .ret false (some packet)
    | _, _ => .panic

/-! Concrete fixtures used by witnesses and counterexamples. -/

/-- fpStable is a concrete frequency plan whose `ADRSettings` always
returns its input pair (the "device already optimally configured"
answer of spec §4.3 step 6). -/
def fpStable : FrequencyPlan :=
  { defaultTXPower := 14,
    adrSettings := fun d p _ _ => .ok (d, p),
    getDataRateIndexFor := fun _ => .ok 5,
    getTxPowerIndexFor := fun _ => .ok 1,
    uplinkChannels := [[5], [0, 1, 2]] }

/-- fpUnavail is a concrete frequency plan whose `ADRSettings` always
reports the ADR-unavailable condition. -/
def fpUnavail : FrequencyPlan :=
  { defaultTXPower := 14,
    adrSettings := fun _ _ _ _ => .error .unavailable,
    getDataRateIndexFor := fun _ => .ok 5,
    getTxPowerIndexFor := fun _ => .ok 1,
    uplinkChannels := [[5]] }

/-- bandGetStable resolves band "B" to `fpStable` and fails otherwise. -/
def bandGetStable : String → Except Unit FrequencyPlan :=
  fun b => if b = "B" then .ok fpStable else .error ()

/-- bandGetUnavail resolves band "BU" to `fpUnavail` and fails
otherwise. -/
def bandGetUnavail : String → Except Unit FrequencyPlan :=
  fun b => if b = "BU" then .ok fpUnavail else .error ()

/-- lossyWindow is a 20-sample window with 20% loss: counters 124 down
to 106 plus 100, so 25 counters were sent and 5 are missing. -/
def lossyWindow : List Frame :=
  (List.range 19).map (fun i => { fcnt := 124 - i, snr := 7, gatewayCount := 1 })
    ++ [{ fcnt := 100, snr := 7, gatewayCount := 1 }]

/-- macEmpty is a downlink MAC payload with no Ack and no queued
commands. -/
def macEmpty : DownlinkMAC := { ack := false, fOpts := [] }

/-- devStable is a fully initialized device state whose stored settings
`fpStable` reproduces. -/
def devStable : Device :=
  { adr :=
      { band := "B",
        dataRate := "DR",
        txPower := 14,
        nbTrans := 1,
        margin := 15,
        sendReq := true,
        failed := 0 },
    options := { disableFCntCheck := false } }

/-- inpLossy feeds `lossyWindow` through the history store with the
stable plan. -/
def inpLossy : DownlinkInput :=
  { framesErr := false, getResult := .ok lossyWindow, bandGet := bandGetStable }

/-- inpNoGap feeds `noGapWindow` through the history store with the
stable plan. -/
def inpNoGap : DownlinkInput :=
  { framesErr := false, getResult := .ok noGapWindow, bandGet := bandGetStable }

/-! Helper lemmas for the `maxSNR` fold. -/

/-- snrFoldStep is the loop body of `maxSNR`. -/
def snrFoldStep : ℚ → Frame → ℚ := fun m fr => if fr.snr > m then fr.snr else m

lemma le_snrFold (l : List Frame) (a : ℚ) : a ≤ l.foldl snrFoldStep a := by
  induction l generalizing a with
  | nil => exact le_refl a
  | cons f t ih =>
    rw [List.foldl_cons]
    refine le_trans ?_ (ih (snrFoldStep a f))
    unfold snrFoldStep
    by_cases h : f.snr > a
    · rw [if_pos h]; exact le_of_lt h
    · rw [if_neg h]

lemma mem_le_snrFold (l : List Frame) (a : ℚ) (f : Frame) (hf : f ∈ l) :
    f.snr ≤ l.foldl snrFoldStep a := by
  induction l generalizing a with
  | nil => cases hf
  | cons g t ih =>
    rw [List.foldl_cons]
    rcases List.mem_cons.mp hf with hfg | hft
    · subst hfg
      refine le_trans ?_ (le_snrFold t (snrFoldStep a f))
      unfold snrFoldStep
      by_cases h : f.snr > a
      · rw [if_pos h]
      · rw [if_neg h]; exact le_of_not_lt h
    · exact ih (snrFoldStep a g) hft

lemma snrFold_mem (l : List Frame) (a : ℚ) :
    l.foldl snrFoldStep a = a ∨ l.foldl snrFoldStep a ∈ l.map Frame.snr := by
  induction l generalizing a with
  | nil => exact Or.inl rfl
  | cons f t ih =>
    rw [List.foldl_cons]
    rcases ih (snrFoldStep a f) with h | h
    · rw [h]
      unfold snrFoldStep
      by_cases hc : f.snr > a
      · rw [if_pos hc]; exact Or.inr (by simp)
      · rw [if_neg hc]; exact Or.inl rfl
    · right
      rw [List.map_cons]
      exact List.mem_cons_of_mem _ h

/-- smallWindow is a three-sample window with distinct SNRs, used as a
witness input. -/
def smallWindow : List Frame :=
  [{ fcnt := 119, snr := 9, gatewayCount := 1 },
   { fcnt := 118, snr := 3, gatewayCount := 2 },
   { fcnt := 117, snr := 12, gatewayCount := 1 }]

/-- C8: for every non-empty frame window, `maxSNR` returns the true
maximum of the SNR field over the frames in the window (it bounds every
member and is itself attained by a member); for the empty window it
returns 0. -/
theorem maxSNR_correct :
    (∀ frames : List Frame, frames ≠ [] →
      (∀ f ∈ frames, f.snr ≤ maxSNR frames) ∧ maxSNR frames ∈ frames.map Frame.snr) ∧
    maxSNR ([] : List Frame) = 0 := by
  constructor
  · intro frames hne
    match frames with
    | f :: t =>
      have hfold : maxSNR (f :: t) = (f :: t).foldl snrFoldStep f.snr := rfl
      constructor
      · intro g hg
        rw [hfold]
        exact mem_le_snrFold _ _ _ hg
      · rw [hfold]
        rcases snrFold_mem (f :: t) f.snr with h | h
        · rw [h]; simp
        · exact h
  · rfl

/-- Witness for C8 at the concrete window `smallWindow`. -/
theorem maxSNR_correct_witness :
    Frame.snr { fcnt := 119, snr := 9, gatewayCount := 1 } ≤ maxSNR smallWindow ∧
    maxSNR smallWindow ∈ smallWindow.map Frame.snr :=
  ⟨(maxSNR_correct.1 smallWindow (by decide)).1
      { fcnt := 119, snr := 9, gatewayCount := 1 } (by decide),
    (maxSNR_correct.1 smallWindow (by decide)).2⟩

/-! Helper lemmas for `lossPercentage`. -/

lemma lossPercentage_formula (frames : List Frame) (newest oldest : Frame)
    (hh : frames.head? = some newest) (hl : frames.getLast? = some oldest)
    (h1 : oldest.fcnt ≤ newest.fcnt)
    (h2 : newest.fcnt - oldest.fcnt + 1 < 2 ^ 32)
    (h3 : frames.length ≤ newest.fcnt - oldest.fcnt + 1) :
    lossPercentage frames =
      ⌊(100 * ((newest.fcnt - oldest.fcnt + 1 - frames.length : ℕ) : ℚ) /
          ((newest.fcnt - oldest.fcnt + 1 : ℕ) : ℚ) + 1 / 2)⌋ := by
  have hsent : (((newest.fcnt : Int) - oldest.fcnt + 1) % 2 ^ 32).toNat =
      newest.fcnt - oldest.fcnt + 1 := by
    have e1 : ((newest.fcnt : Int) - oldest.fcnt + 1) =
        ((newest.fcnt - oldest.fcnt + 1 : ℕ) : Int) := by omega
    rw [e1, Int.emod_eq_of_lt (by positivity) (by exact_mod_cast h2)]
    exact Int.toNat_natCast _
  have hloss : ((((newest.fcnt - oldest.fcnt + 1 : ℕ) : Int) - frames.length) % 2 ^ 32).toNat =
      newest.fcnt - oldest.fcnt + 1 - frames.length := by
    have e1 : (((newest.fcnt - oldest.fcnt + 1 : ℕ) : Int) - frames.length) =
        ((newest.fcnt - oldest.fcnt + 1 - frames.length : ℕ) : Int) := by omega
    rw [e1, Int.emod_eq_of_lt (by positivity) (by exact_mod_cast (by omega : newest.fcnt - oldest.fcnt + 1 - frames.length < 2 ^ 32))]
    exact Int.toNat_natCast _
  simp only [lossPercentage, hh, hl, hsent, hloss]
  set S : ℕ := newest.fcnt - oldest.fcnt + 1 with hSdef
  set L : ℕ := S - frames.length with hLdef
  have hS0 : (S : ℚ) ≠ 0 := by
    have : 0 < S := by omega
    exact_mod_cast this.ne'
  have hq : (100 * (L : ℚ) / (S : ℚ) + 1 / 2) =
      (((200 * L + S : ℕ) : ℤ) : ℚ) / ((2 * S : ℕ) : ℚ) := by
    field_simp
    ring
  rw [hq, Rat.floor_intCast_div_natCast]
  rw [(Int.natCast_div (200 * L + S) (2 * S)).symm]

lemma lossPercentage_noGaps (frames : List Frame) (newest : Frame)
    (hh : frames.head? = some newest)
    (_hb : newest.fcnt < 2 ^ 32) (hlen : frames.length < 2 ^ 32)
    (hcons : ∀ i (h : i < frames.length), (frames.get ⟨i, h⟩).fcnt + i = newest.fcnt) :
    lossPercentage frames = 0 := by
  have hne : frames ≠ [] := by
    intro h
    rw [h] at hh
    cases hh
  have hn : 0 < frames.length := List.length_pos.mpr hne
  have hl : frames.getLast? = some (frames.getLast hne) := List.getLast?_eq_getLast frames hne
  have hlast : frames.getLast hne = frames.get ⟨frames.length - 1, by omega⟩ :=
    List.getLast_eq_get frames hne
  have hold : (frames.getLast hne).fcnt + (frames.length - 1) = newest.fcnt := by
    rw [hlast]
    exact hcons (frames.length - 1) (by omega)
  have h1 : (frames.getLast hne).fcnt ≤ newest.fcnt := by omega
  have hS : newest.fcnt - (frames.getLast hne).fcnt + 1 = frames.length := by omega
  have := lossPercentage_formula frames newest (frames.getLast hne) hh hl h1
    (by omega) (by omega)
  rw [this, hS]
  have : frames.length - frames.length = 0 := by omega
  rw [this]
  norm_num

/-- C1: for every frame window, `lossPercentage` computes
`sentPackets = newest.FCnt - oldest.FCnt + 1`,
`loss = sentPackets - numberOfSamplesInWindow`, and returns
`round(100 * loss / sentPackets)` (modelled as
`⌊100 * loss / sentPackets + 1/2⌋`), provided the window does not wrap
the 32-bit counter; every gap-free window (consecutive counters, newest
first) yields 0; and the spec's example window (counters 100..119 with
105 and 110 missing, 18 samples) yields 10. -/
theorem lossPercentage_correct :
    (∀ (frames : List Frame) (newest oldest : Frame),
      frames.head? = some newest → frames.getLast? = some oldest →
      oldest.fcnt ≤ newest.fcnt →
      newest.fcnt - oldest.fcnt + 1 < 2 ^ 32 →
      frames.length ≤ newest.fcnt - oldest.fcnt + 1 →
      lossPercentage frames =
        ⌊(100 * ((newest.fcnt - oldest.fcnt + 1 - frames.length : ℕ) : ℚ) /
            ((newest.fcnt - oldest.fcnt + 1 : ℕ) : ℚ) + 1 / 2)⌋) ∧
    (∀ (frames : List Frame) (newest : Frame),
      frames.head? = some newest → newest.fcnt < 2 ^ 32 → frames.length < 2 ^ 32 →
      (∀ i (h : i < frames.length), (frames.get ⟨i, h⟩).fcnt + i = newest.fcnt) →
      lossPercentage frames = 0) ∧
    lossPercentage exampleWindow = 10 :=
  ⟨lossPercentage_formula, lossPercentage_noGaps, by decide⟩

set_option maxRecDepth 100000 in
/-- Witness for C1: the gap-free window of counters 119 down to 100 has
loss percentage 0. -/
theorem lossPercentage_correct_witness :
    lossPercentage noGapWindow = 0 :=
  lossPercentage_correct.2.1 noGapWindow
    { fcnt := 119, snr := 7, gatewayCount := 1 }
    (by decide) (by decide) (by decide) (by decide)

/-- C5: the retransmission-count step of `handleDownlinkADR` runs only
when the candidate data rate and power equal the stored values and the
per-device disable-frame-counter-check option is unset; it then
decrements for loss ≤ 5, keeps for loss ≤ 10, increments for loss ≤ 30,
adds 2 beyond, and clamps the raw result into the closed range [1, 3]
(raw -1 becomes 1, raw 5 becomes 3). -/
theorem nbTransStep_correct :
    (∀ (dev : Device) (frames : List Frame) (dataRate : String) (txPower : Int),
      ¬(dev.adr.dataRate = dataRate ∧ dev.adr.txPower = txPower ∧
          dev.options.disableFCntCheck = false) →
      nbTransStep dev frames dataRate txPower = dev.adr.nbTrans) ∧
    (∀ (dev : Device) (frames : List Frame) (dataRate : String) (txPower : Int),
      dev.adr.dataRate = dataRate → dev.adr.txPower = txPower →
      dev.options.disableFCntCheck = false →
      nbTransStep dev frames dataRate txPower =
        clampNbTrans
          (if lossPercentage frames ≤ 5 then dev.adr.nbTrans - 1
           else if lossPercentage frames ≤ 10 then dev.adr.nbTrans
           else if lossPercentage frames ≤ 30 then dev.adr.nbTrans + 1
           else dev.adr.nbTrans + 2)) ∧
    (∀ n : Int, 1 ≤ clampNbTrans n ∧ clampNbTrans n ≤ 3) ∧
    (∀ n : Int, 1 ≤ n → n ≤ 3 → clampNbTrans n = n) ∧
    clampNbTrans (-1) = 1 ∧ clampNbTrans 5 = 3 := by
  refine ⟨?_, ?_, ?_, ?_, by decide, by decide⟩
  · intro dev frames dataRate txPower h
    rw [nbTransStep, if_neg h]
  · intro dev frames dataRate txPower h1 h2 h3
    rw [nbTransStep, if_pos ⟨h1, h2, h3⟩]
    rfl
  · intro n
    simp only [clampNbTrans]
    constructor <;> (split_ifs <;> omega)
  · intro n hn1 hn3
    simp only [clampNbTrans]
    split_ifs <;> omega

set_option maxRecDepth 100000 in
/-- Witness for C5: at the 20% lossy window with stored count 1 and
matching settings, the step yields clamp(1 + 1) = 2. -/
theorem nbTransStep_correct_witness :
    nbTransStep devStable lossyWindow "DR" 14 =
      clampNbTrans
        (if lossPercentage lossyWindow ≤ 5 then devStable.adr.nbTrans - 1
         else if lossPercentage lossyWindow ≤ 10 then devStable.adr.nbTrans
         else if lossPercentage lossyWindow ≤ 30 then devStable.adr.nbTrans + 1
         else devStable.adr.nbTrans + 2) ∧
    clampNbTrans (-1) = 1 :=
  ⟨nbTransStep_correct.2.1 devStable lossyWindow "DR" 14 (by decide) (by decide) (by decide),
    nbTransStep_correct.2.2.2.2.1⟩

/-- C6: an ADR-disabled uplink (with the history lookup succeeding)
clears the device's frame history and resets `SendReq = false`,
`DataRate = ""`, `TxPower = 0`, `NbTrans = 0`, while a failure of the
history clear is propagated as an error that aborts the path with
nothing changed. -/
theorem handleUplinkADR_disabled :
    ∀ (framesErr pushErr clearErr : Bool) (msg : UplinkMsg) (dev : Device)
      (history : List Frame) (mac : DownlinkMAC),
      msg.adr = false → framesErr = false →
      (clearErr = true →
        handleUplinkADR framesErr pushErr clearErr msg dev history mac =
          ⟨true, dev, history, mac⟩) ∧
      (clearErr = false →
        handleUplinkADR framesErr pushErr clearErr msg dev history mac =
          ⟨false,
            { dev with adr :=
                { dev.adr with
                  sendReq := false,
                  dataRate := "",
                  txPower := 0,
                  nbTrans := 0 } },
            [], mac⟩) := by
  intro framesErr pushErr clearErr msg dev history mac hadr hf
  constructor <;> intro hc <;> simp [handleUplinkADR, hadr, hf, hc]

/-- Witness for C6 at a concrete disabled uplink. -/
theorem handleUplinkADR_disabled_witness :
    handleUplinkADR false false false
        { adr := false, adrAckReq := false, fcnt := 7, dataRate := "DR",
          frequencyPlan := "B", gatewaySNRs := [] }
        devStable noGapWindow macEmpty =
      ⟨false,
        { devStable with adr :=
            { devStable.adr with
              sendReq := false,
              dataRate := "",
              txPower := 0,
              nbTrans := 0 } },
        [], macEmpty⟩ :=
  (handleUplinkADR_disabled false false false
    { adr := false, adrAckReq := false, fcnt := 7, dataRate := "DR",
      frequencyPlan := "B", gatewaySNRs := [] }
    devStable noGapWindow macEmpty rfl rfl).2 rfl

/-- C9: `handleDownlinkADR` never reads the error of the
`n.devices.Frames` lookup — its result is identical whatever that error
was, so the only store error observable from this step is the one
returned by `history.Get()`. -/
theorem framesErr_not_propagated :
    ∀ (b : Bool) (g : Except Unit (List Frame))
      (bg : String → Except Unit FrequencyPlan) (dev : Device) (mac : DownlinkMAC),
      handleDownlinkADR { framesErr := b, getResult := g, bandGet := bg } dev mac =
        handleDownlinkADR { framesErr := false, getResult := g, bandGet := bg } dev mac :=
  fun _ _ _ _ _ => rfl

/-- C7: splicing a fresh LinkADRReq into a command list removes every
queued LinkADRReq and appends the new one, so exactly one LinkADRReq
remains (the new one, in last position) and the commands of other kinds
keep their original relative order. -/
theorem spliceLinkADRReq_correct :
    ∀ (fOpts : List MACCommand) (cmd : MACCommand), cmd.cid = LinkADRReqCID →
      (spliceLinkADRReq fOpts cmd).filter (fun c => c.cid = LinkADRReqCID) = [cmd] ∧
      (spliceLinkADRReq fOpts cmd).filter (fun c => c.cid ≠ LinkADRReqCID) =
        fOpts.filter (fun c => c.cid ≠ LinkADRReqCID) ∧
      (spliceLinkADRReq fOpts cmd).getLast? = some cmd := by
  intro fOpts cmd h
  refine ⟨?_, ?_, List.getLast?_concat _⟩
  · rw [spliceLinkADRReq, List.filter_append, List.filter_filter]
    have h1 : ∀ a : MACCommand,
        (decide (a.cid = LinkADRReqCID) && decide (a.cid ≠ LinkADRReqCID)) = false := by
      intro a
      by_cases ha : a.cid = LinkADRReqCID <;> simp [ha]
    simp [h1, h]
  · rw [spliceLinkADRReq, List.filter_append, List.filter_filter]
    have h1 : ∀ a : MACCommand,
        (decide (a.cid ≠ LinkADRReqCID) && decide (a.cid ≠ LinkADRReqCID)) =
          decide (a.cid ≠ LinkADRReqCID) := by
      intro a
      by_cases ha : a.cid = LinkADRReqCID <;> simp [ha]
    simp [h1, h]

/-- Witness for C7 at a concrete three-command list containing one old
LinkADRReq. -/
theorem spliceLinkADRReq_correct_witness :
    (spliceLinkADRReq
        [{ cid := 5, payload := [] }, { cid := 3, payload := [9] },
         { cid := 6, payload := [1] }]
        { cid := 3, payload := [7] }).filter
        (fun c => c.cid = LinkADRReqCID) = [{ cid := 3, payload := [7] }] ∧
    (spliceLinkADRReq
        [{ cid := 5, payload := [] }, { cid := 3, payload := [9] },
         { cid := 6, payload := [1] }]
        { cid := 3, payload := [7] }).getLast? = some { cid := 3, payload := [7] } :=
  ⟨(spliceLinkADRReq_correct
      [{ cid := 5, payload := [] }, { cid := 3, payload := [9] },
       { cid := 6, payload := [1] }]
      { cid := 3, payload := [7] } rfl).1,
    (spliceLinkADRReq_correct
      [{ cid := 5, payload := [] }, { cid := 3, payload := [9] },
       { cid := 6, payload := [1] }]
      { cid := 3, payload := [7] } rfl).2.2⟩

/-- C10: `Parse` is not total — the `size < 3` guard admits length-3
inputs whose `raw[3]` header read then indexes past the end (every
length-3 input reaches the out-of-range read, e.g. `[1, 0, 0]`), while
inputs shorter than 3 are rejected with an error before any read and
inputs of length at least 4 never index out of range. -/
theorem Parse_bounds :
    (∀ dec : List Nat → Bool × Option Payload, Parse dec [1, 0, 0] = GoResult.panic) ∧
    (∀ (dec : List Nat → Bool × Option Payload) (raw : List Nat),
      raw.length < 3 → Parse dec raw = .ret true none) ∧
    (∀ (dec : List Nat → Bool × Option Payload) (raw : List Nat),
      raw.length = 3 → Parse dec raw = GoResult.panic) ∧
    (∀ (dec : List Nat → Bool × Option Payload) (raw : List Nat),
      4 ≤ raw.length → Parse dec raw ≠ GoResult.panic) := by
  refine ⟨fun dec => rfl, ?_, ?_, ?_⟩
  · intro dec raw h
    simp only [Parse]
    rw [if_pos h]
  · intro dec raw h
    have h0 : raw.get? 0 = some (raw.get ⟨0, by omega⟩) := List.get?_eq_get (by omega)
    have h3 : raw.get? 3 = none := List.get?_eq_none.mpr (by omega)
    simp only [Parse, h0, h3]
    rw [if_neg (by omega)]
  · intro dec raw h
    have h0 : raw.get? 0 = some (raw.get ⟨0, by omega⟩) := List.get?_eq_get (by omega)
    have h3 : raw.get? 3 = some (raw.get ⟨3, by omega⟩) := List.get?_eq_get (by omega)
    simp only [Parse, h0, h3]
    rw [if_neg (by omega)]
    split_ifs <;> simp

/-- Witness for C10 at concrete inputs of lengths 0, 3 and 12. -/
theorem Parse_bounds_witness :
    Parse (fun _ => (false, none)) [] = GoResult.ret true none ∧
    Parse (fun _ => (false, none)) [1, 0, 0] = GoResult.panic ∧
    Parse (fun _ => (false, none)) [1, 0, 0, 2, 9, 9, 9, 9, 9, 9, 9, 9] ≠ GoResult.panic :=
  ⟨Parse_bounds.2.1 (fun _ => (false, none)) [] (by decide),
    Parse_bounds.2.2.1 (fun _ => (false, none)) [1, 0, 0] (by decide),
    Parse_bounds.2.2.2 (fun _ => (false, none)) [1, 0, 0, 2, 9, 9, 9, 9, 9, 9, 9, 9] (by decide)⟩

/-- devBandEmpty has an empty band, an unset margin and otherwise
initialized state: it drives the empty-band early exit. -/
def devBandEmpty : Device :=
  { adr :=
      { band := "",
        dataRate := "DR",
        txPower := 14,
        nbTrans := 1,
        margin := 0,
        sendReq := true,
        failed := 0 },
    options := { disableFCntCheck := false } }

set_option maxRecDepth 100000 in
/-- Counterexample for C4: at the empty-band early exit the call returns
success but has already written the margin default, so the Device ADR
State is not left entirely unchanged. -/
theorem earlyExit_margin_counterexample :
    devBandEmpty.adr.margin = 0 ∧
    (handleDownlinkADR inpNoGap devBandEmpty macEmpty).err = false ∧
    (handleDownlinkADR inpNoGap devBandEmpty macEmpty).dev.adr.margin = DefaultADRMargin ∧
    (handleDownlinkADR inpNoGap devBandEmpty macEmpty).dev ≠ devBandEmpty := by decide

/-- C4 (amended): every early exit of `handleDownlinkADR` returns
success and leaves the downlink message unchanged; the SendReq-false,
Failed-positive, short-history and empty-data-rate exits also leave the
Device ADR State entirely unchanged, while the empty-band exit runs
after the margin default and therefore leaves the state unchanged
except that a zero Margin has been set to `DefaultADRMargin`. -/
theorem earlyExits_amended :
    ∀ (inp : DownlinkInput) (dev : Device) (mac : DownlinkMAC),
      (dev.adr.sendReq = false → handleDownlinkADR inp dev mac = ⟨false, dev, mac⟩) ∧
      (0 < dev.adr.failed → handleDownlinkADR inp dev mac = ⟨false, dev, mac⟩) ∧
      (∀ frames0 : List Frame, dev.adr.sendReq = true → dev.adr.failed ≤ 0 →
        inp.getResult = .ok frames0 → frames0.length < FramesHistorySize →
        handleDownlinkADR inp dev mac = ⟨false, dev, mac⟩) ∧
      (∀ frames0 : List Frame, dev.adr.sendReq = true → dev.adr.failed ≤ 0 →
        inp.getResult = .ok frames0 → FramesHistorySize ≤ frames0.length →
        dev.adr.dataRate = "" →
        handleDownlinkADR inp dev mac = ⟨false, dev, mac⟩) ∧
      (∀ frames0 : List Frame, dev.adr.sendReq = true → dev.adr.failed ≤ 0 →
        inp.getResult = .ok frames0 → FramesHistorySize ≤ frames0.length →
        dev.adr.dataRate ≠ "" → dev.adr.band = "" →
        handleDownlinkADR inp dev mac =
          ⟨false,
            if dev.adr.margin = 0 then
              { dev with adr := { dev.adr with margin := DefaultADRMargin } }
            else dev,
            mac⟩) := by
  intro inp dev mac
  refine ⟨?_, ?_, ?_, ?_, ?_⟩
  · intro h
    simp [handleDownlinkADR, h]
  · intro h
    by_cases hs : dev.adr.sendReq = false <;> simp [handleDownlinkADR, hs, h]
  · intro frames0 hs hf hget hlen
    simp only [handleDownlinkADR, hs, hget]
    rw [if_neg (by simp), if_neg (not_lt.mpr hf)]
    simp [hlen]
  · intro frames0 hs hf hget hlen hdr
    simp only [handleDownlinkADR, hs, hget]
    rw [if_neg (by simp), if_neg (not_lt.mpr hf)]
    rw [if_neg (not_lt.mpr hlen), if_pos hdr]
  · intro frames0 hs hf hget hlen hdr hband
    simp only [handleDownlinkADR, hs, hget]
    rw [if_neg (by simp), if_neg (not_lt.mpr hf)]
    rw [if_neg (not_lt.mpr hlen), if_neg hdr]
    by_cases hm : dev.adr.margin = 0 <;> simp [hm, hband]

set_option maxRecDepth 100000 in
/-- Witness for the amended C4 at the empty-band exit. -/
theorem earlyExits_amended_witness :
    handleDownlinkADR inpNoGap devBandEmpty macEmpty =
      ⟨false,
        if devBandEmpty.adr.margin = 0 then
          { devBandEmpty with adr :=
              { devBandEmpty.adr with margin := DefaultADRMargin } }
        else devBandEmpty,
        macEmpty⟩ :=
  (earlyExits_amended inpNoGap devBandEmpty macEmpty).2.2.2.2 noGapWindow
    rfl (by decide) rfl (by decide) (by decide) rfl

/-- devZeros has all lazily-defaulted fields at their unset zero values
and band "BU", whose plan always reports ADR-unavailable. -/
def devZeros : Device :=
  { adr :=
      { band := "BU",
        dataRate := "DR",
        txPower := 0,
        nbTrans := 0,
        margin := 0,
        sendReq := true,
        failed := 0 },
    options := { disableFCntCheck := false } }

/-- inpUnavail feeds `noGapWindow` with the always-unavailable plan. -/
def inpUnavail : DownlinkInput :=
  { framesErr := false, getResult := .ok noGapWindow, bandGet := bandGetUnavail }

set_option maxRecDepth 100000 in
/-- Counterexample for C3: on ADR-unavailable the call returns success
and emits nothing, but the Device ADR State is not left unchanged — the
margin, power and retransmission defaults written before the plan call
persist. -/
theorem adrUnavailable_counterexample :
    (handleDownlinkADR inpUnavail devZeros macEmpty).err = false ∧
    (handleDownlinkADR inpUnavail devZeros macEmpty).mac = macEmpty ∧
    (handleDownlinkADR inpUnavail devZeros macEmpty).dev ≠ devZeros ∧
    (handleDownlinkADR inpUnavail devZeros macEmpty).dev.adr.margin = 15 ∧
    (handleDownlinkADR inpUnavail devZeros macEmpty).dev.adr.txPower = 14 ∧
    (handleDownlinkADR inpUnavail devZeros macEmpty).dev.adr.nbTrans = 1 := by decide

/-- C3 (amended): whenever the plan's `ADRSettings` reports the
ADR-unavailable condition, `handleDownlinkADR` returns success, emits no
MAC command and leaves the downlink message unchanged; the Device ADR
State is unchanged except for the lazily-applied defaults written before
the plan call (Margin to `DefaultADRMargin` if 0, TxPower to the plan
default if 0, NbTrans to 1 if 0). -/
theorem adrUnavailable_amended :
    ∀ (inp : DownlinkInput) (dev : Device) (mac : DownlinkMAC)
      (frames0 : List Frame) (fp : FrequencyPlan),
      dev.adr.sendReq = true → dev.adr.failed ≤ 0 →
      inp.getResult = .ok frames0 → FramesHistorySize ≤ frames0.length →
      dev.adr.dataRate ≠ "" → dev.adr.band ≠ "" →
      inp.bandGet dev.adr.band = .ok fp →
      fp.adrSettings (applyADRDefaults fp dev).adr.dataRate
        (applyADRDefaults fp dev).adr.txPower
        (maxSNR (frames0.take FramesHistorySize))
        ((applyADRDefaults fp dev).adr.margin : ℚ) = .error .unavailable →
      handleDownlinkADR inp dev mac = ⟨false, applyADRDefaults fp dev, mac⟩ := by
  intro inp dev mac frames0 fp hs hf hget hlen hdr hband hbg hadr
  simp only [applyADRDefaults] at hadr ⊢
  simp only [handleDownlinkADR, hs, hget]
  rw [if_neg (by simp), if_neg (not_lt.mpr hf)]
  rw [if_neg (not_lt.mpr hlen), if_neg hdr]
  by_cases hm : dev.adr.margin = 0 <;>
    simp only [hm, if_true, if_false, reduceIte] <;>
    [skip; skip] <;>
    simp [hband, hbg] <;>
    by_cases htp : dev.adr.txPower = 0 <;>
    by_cases hnb : dev.adr.nbTrans = 0 <;>
    simp_all [htp, hnb]

set_option maxRecDepth 100000 in
/-- Witness for the amended C3 at a device with all defaults unset. -/
theorem adrUnavailable_amended_witness :
    handleDownlinkADR inpUnavail devZeros macEmpty =
      ⟨false, applyADRDefaults fpUnavail devZeros, macEmpty⟩ :=
  adrUnavailable_amended inpUnavail devZeros macEmpty noGapWindow fpUnavail
    rfl (by decide) rfl (by decide) (by decide) (by decide) rfl rfl

set_option maxRecDepth 1000000 in
/-- Counterexample for C2: with a plan that reproduces the stored
settings and a window with 20% loss, the first invocation bumps NbTrans
from 1 to 2 and the second invocation is not a no-op — it bumps NbTrans
again, to 3, and rebuilds the LinkADRReq. -/
theorem secondInvocation_counterexample :
    (handleDownlinkADR inpLossy devStable macEmpty).err = false ∧
    (handleDownlinkADR inpLossy devStable macEmpty).dev.adr.nbTrans = 2 ∧
    handleDownlinkADR inpLossy (handleDownlinkADR inpLossy devStable macEmpty).dev
        (handleDownlinkADR inpLossy devStable macEmpty).mac ≠
      ⟨false, (handleDownlinkADR inpLossy devStable macEmpty).dev,
        (handleDownlinkADR inpLossy devStable macEmpty).mac⟩ ∧
    (handleDownlinkADR inpLossy (handleDownlinkADR inpLossy devStable macEmpty).dev
        (handleDownlinkADR inpLossy devStable macEmpty).mac).dev.adr.nbTrans = 3 := by
  decide

lemma handleDownlinkADR_noop :
    ∀ (inp : DownlinkInput) (dev : Device) (mac : DownlinkMAC)
      (frames0 : List Frame) (fp : FrequencyPlan) (drIdx : Nat),
      dev.adr.sendReq = true → dev.adr.failed ≤ 0 →
      inp.getResult = .ok frames0 → FramesHistorySize ≤ frames0.length →
      dev.adr.dataRate ≠ "" → dev.adr.margin ≠ 0 → dev.adr.band ≠ "" →
      inp.bandGet dev.adr.band = .ok fp →
      dev.adr.txPower ≠ 0 → dev.adr.nbTrans ≠ 0 →
      fp.adrSettings dev.adr.dataRate dev.adr.txPower
        (maxSNR (frames0.take FramesHistorySize)) (dev.adr.margin : ℚ) =
        .ok (dev.adr.dataRate, dev.adr.txPower) →
      fp.getDataRateIndexFor dev.adr.dataRate = .ok drIdx →
      nbTransStep dev (frames0.take FramesHistorySize) dev.adr.dataRate dev.adr.txPower =
        dev.adr.nbTrans →
      handleDownlinkADR inp dev mac = ⟨false, dev, mac⟩ := by
  intro inp dev mac frames0 fp drIdx hs hf hget hlen hdr hm hband hbg htp hnb hadr hidx hstep
  simp only [handleDownlinkADR, hs, hget]
  rw [if_neg (by simp), if_neg (not_lt.mpr hf)]
  rw [if_neg (not_lt.mpr hlen), if_neg hdr, if_neg hm, if_neg hband]
  rw [hbg]
  simp only [if_neg htp, if_neg hnb]
  rw [hadr]
  dsimp only
  rw [hidx]
  dsimp only
  rw [hstep]
  rw [if_pos ⟨rfl, rfl, rfl⟩]

/-- C2 (amended): a second invocation of `handleDownlinkADR` with no
intervening uplinks is a no-op provided the state left by the first
invocation is a fixed point of the computation — the plan returns
exactly the stored (DataRate, TxPower) for it, the data-rate index
lookup succeeds, and the retransmission adjustment maps the stored
NbTrans to itself (all margins, powers and counts being nonzero after a
first pass through the defaults); without the fixed-point condition the
second invocation can mutate state again, as the counterexample shows. -/
theorem secondInvocation_amended :
    ∀ (inp : DownlinkInput) (dev : Device) (mac : DownlinkMAC)
      (frames0 : List Frame) (fp : FrequencyPlan) (drIdx : Nat),
      (handleDownlinkADR inp dev mac).dev.adr.sendReq = true →
      (handleDownlinkADR inp dev mac).dev.adr.failed ≤ 0 →
      inp.getResult = .ok frames0 → FramesHistorySize ≤ frames0.length →
      (handleDownlinkADR inp dev mac).dev.adr.dataRate ≠ "" →
      (handleDownlinkADR inp dev mac).dev.adr.margin ≠ 0 →
      (handleDownlinkADR inp dev mac).dev.adr.band ≠ "" →
      inp.bandGet (handleDownlinkADR inp dev mac).dev.adr.band = .ok fp →
      (handleDownlinkADR inp dev mac).dev.adr.txPower ≠ 0 →
      (handleDownlinkADR inp dev mac).dev.adr.nbTrans ≠ 0 →
      fp.adrSettings (handleDownlinkADR inp dev mac).dev.adr.dataRate
        (handleDownlinkADR inp dev mac).dev.adr.txPower
        (maxSNR (frames0.take FramesHistorySize))
        ((handleDownlinkADR inp dev mac).dev.adr.margin : ℚ) =
        .ok ((handleDownlinkADR inp dev mac).dev.adr.dataRate,
          (handleDownlinkADR inp dev mac).dev.adr.txPower) →
      fp.getDataRateIndexFor (handleDownlinkADR inp dev mac).dev.adr.dataRate = .ok drIdx →
      nbTransStep (handleDownlinkADR inp dev mac).dev (frames0.take FramesHistorySize)
        (handleDownlinkADR inp dev mac).dev.adr.dataRate
        (handleDownlinkADR inp dev mac).dev.adr.txPower =
        (handleDownlinkADR inp dev mac).dev.adr.nbTrans →
      handleDownlinkADR inp (handleDownlinkADR inp dev mac).dev
          (handleDownlinkADR inp dev mac).mac =
        ⟨false, (handleDownlinkADR inp dev mac).dev,
          (handleDownlinkADR inp dev mac).mac⟩ :=
  fun inp dev mac frames0 fp drIdx hs hf hget hlen hdr hm hband hbg htp hnb hadr hidx hstep =>
    handleDownlinkADR_noop inp (handleDownlinkADR inp dev mac).dev
      (handleDownlinkADR inp dev mac).mac frames0 fp drIdx
      hs hf hget hlen hdr hm hband hbg htp hnb hadr hidx hstep

set_option maxRecDepth 1000000 in
/-- Witness for the amended C2: with the stable plan, a gap-free window
and stored NbTrans 1, the first invocation is already at the fixed point
and the second invocation is a no-op. -/
theorem secondInvocation_amended_witness :
    handleDownlinkADR inpNoGap (handleDownlinkADR inpNoGap devStable macEmpty).dev
        (handleDownlinkADR inpNoGap devStable macEmpty).mac =
      ⟨false, (handleDownlinkADR inpNoGap devStable macEmpty).dev,
        (handleDownlinkADR inpNoGap devStable macEmpty).mac⟩ :=
  secondInvocation_amended inpNoGap devStable macEmpty noGapWindow fpStable 5
    (by decide) (by decide) rfl (by decide) (by decide) (by decide) (by decide)
    (by rfl) (by decide) (by decide) (by rfl) (by rfl) (by decide)

end TTN
